import Mathlib

/-!
Shallow embedding of `src/embedding.py`: a minimal HTTP embedding client
with two operations, `get_embedding` (single text) and
`get_embeddings_batch` (many texts).  The HTTP transport is modelled as a
function from the constructed request to a response (status code plus a
parsed JSON body); each operation returns its result together with the
list of outbound requests it made, so call counts and request shapes are
observable.  JSON values are an inductive type; a JSON `null` stored
under a key is observed as Python `None` by `dict.get`, exactly as
`json.loads` produces.  Error messages from the source are carried as
structured variants (the counts and the offending index are the data the
source interpolates into its `ValueError` messages).
-/

set_option autoImplicit false

namespace OpenMemory

/-- JSON values as parsed by `response.json()`. -/
inductive Json where
  | null
  | bool (b : Bool)
  | num (n : Int)
  | str (s : String)
  | arr (xs : List Json)
  | obj (fields : List (String × Json))

/-- `d.get(k)` on a parsed JSON object: `none` when the key is absent or
its stored value is JSON `null` (both observe as Python `None`). -/
def pyGet (fields : List (String × Json)) (k : String) : Option Json :=
  match fields.lookup k with
  | some Json.null => none
  | some v => some v
  | none => none

/-- Python truthiness of the value returned by `data.get("embeddings")`:
`None`, `0`, `False`, the empty string, list and dict are falsy. -/
def pyTruthy : Option Json → Bool
  | none => false
  | some Json.null => false
  | some (Json.bool b) => b
  | some (Json.num n) => n != 0
  | some (Json.str s) => s != ""
  | some (Json.arr xs) => !xs.isEmpty
  | some (Json.obj fs) => !fs.isEmpty

/-- `len(v)` for a Python value: defined for strings, lists and dicts,
a `TypeError` (modelled as `none`) otherwise. -/
def pyLen : Json → Option Nat
  | Json.str s => some s.length
  | Json.arr xs => some xs.length
  | Json.obj fs => some fs.length
  | _ => none

/-- An item of the mocked response list carries the vector `v` under its
`embedding` key. -/
def hasEmbedding (item v : Json) : Prop :=
  ∃ fs, item = Json.obj fs ∧ pyGet fs "embedding" = some v

/-- Errors an operation can surface.  `transport` is the `HTTPError`
raised by `response.raise_for_status()`; the `ValueError` messages of the
source are carried structurally; `pyRuntime` stands for a Python runtime
error (`TypeError` / `AttributeError` / `KeyError`) on response shapes
the source never guards against. -/
inductive EmbedError where
  | transport (status : Nat)
  | missingEmbeddings
  | missingEmbedding
  | lengthMismatch (expected got : Nat)
  | missingEmbeddingAt (i : Nat)
  | pyRuntime

/-- The `ValueError` message text of the source, one per variant
(quotation marks of the original messages omitted). -/
def EmbedError.message : EmbedError → String
  | .transport s => "HTTP error " ++ toString s
  | .missingEmbeddings => "Invalid response payload: missing embeddings"
  | .missingEmbedding => "Invalid response payload: missing embedding"
  | .lengthMismatch e g =>
      "Response length mismatch: expected " ++ toString e ++ ", got " ++ toString g
  | .missingEmbeddingAt i => "Missing embedding in response item " ++ toString i
  | .pyRuntime => "python runtime error"

/-- An HTTP response: final status code and parsed JSON body. -/
structure Response where
  status : Nat
  body : Json

/-- The outbound HTTP request `requests.post` is given. -/
structure Request where
  method : String
  url : String
  headers : List (String × String)
  body : Json
  timeout : Nat

/-- `requests.Response.raise_for_status` raises an `HTTPError` exactly
for client-error (4xx) and server-error (5xx) status codes. -/
def raise_for_status (status : Nat) : Bool :=
  400 ≤ status && status < 600

/-- The client configuration (`Embedding.__init__` stores these three). -/
structure Embedding where
  api_key : String
  base_url : String
  model : String

/-- `base_url.rstrip("/")`: remove every trailing slash. -/
def rstripSlashes (s : String) : String :=
  String.mk ((s.data.reverse.dropWhile (fun c => c == '/')).reverse)

/-- `Embedding.__init__`: stores the key and model, normalizes the base
URL by stripping trailing slashes. -/
def Embedding.init (api_key base_url model : String) : Embedding :=
  { api_key := api_key, base_url := rstripSlashes base_url, model := model }

/-- The JSON payload both operations build:
`{"inputs": texts, "input_type": "document", "embedding_model": model}`. -/
def payloadFor (texts : List String) (model : String) : Json :=
  Json.obj [("inputs", Json.arr (texts.map Json.str)),
            ("input_type", Json.str "document"),
            ("embedding_model", Json.str model)]

/-- The request `get_embedding` posts: one-element input list, 30s timeout. -/
def Embedding.singleRequest (e : Embedding) (text : String) : Request :=
  { method := "POST"
    url := e.base_url ++ "/embeddings"
    headers := [("Authorization", "Bearer " ++ e.api_key)]
    body := payloadFor [text] e.model
    timeout := 30 }

/-- The request `get_embeddings_batch` posts: all texts at once, 60s timeout. -/
def Embedding.batchRequest (e : Embedding) (texts : List String) : Request :=
  { method := "POST"
    url := e.base_url ++ "/embeddings"
    headers := [("Authorization", "Bearer " ++ e.api_key)]
    body := payloadFor texts e.model
    timeout := 60 }

/-- Response handling of `get_embedding` (lines 32-40 of the source):
raise for status, read `data.get("embeddings")`, fail when falsy, take
`items[0].get("embedding")`, fail when `None`, else return it. -/
def parseSingle (resp : Response) : Except EmbedError Json :=
  if raise_for_status resp.status then Except.error (EmbedError.transport resp.status)
  else
    match resp.body with
    | Json.obj fields =>
      let items := pyGet fields "embeddings"
      if pyTruthy items = false then Except.error EmbedError.missingEmbeddings
      else
        match items with
        | some (Json.arr (first :: _)) =>
          match first with
          | Json.obj ifs =>
            match pyGet ifs "embedding" with
            | some v => Except.ok v
            | none => Except.error EmbedError.missingEmbedding
          | _ => Except.error EmbedError.pyRuntime
        | _ => Except.error EmbedError.pyRuntime
    | _ => Except.error EmbedError.pyRuntime

/-- The extraction loop of `get_embeddings_batch` (lines 82-87): for each
item in order, read `item.get("embedding")`; fail naming the index when it
is `None`, else append. -/
def extractEmbeddings : Nat → List Json → Except EmbedError (List Json)
  | _, [] => Except.ok []
  | i, item :: rest =>
    match item with
    | Json.obj ifs =>
      match pyGet ifs "embedding" with
      | some v =>
        match extractEmbeddings (i + 1) rest with
        | Except.ok tl => Except.ok (v :: tl)
        | Except.error err => Except.error err
      | none => Except.error (EmbedError.missingEmbeddingAt i)
    | _ => Except.error EmbedError.pyRuntime

/-- Response handling of `get_embeddings_batch` (lines 69-89): raise for
status, read `data.get("embeddings")`, fail when falsy, fail when
`len(items) != len(texts)`, else extract every item in order. -/
def parseBatch (texts : List String) (resp : Response) : Except EmbedError (List Json) :=
  if raise_for_status resp.status then Except.error (EmbedError.transport resp.status)
  else
    match resp.body with
    | Json.obj fields =>
      let items := pyGet fields "embeddings"
      if pyTruthy items = false then Except.error EmbedError.missingEmbeddings
      else
        match items with
        | some j =>
          match pyLen j with
          | some n =>
            if n ≠ texts.length then
              Except.error (EmbedError.lengthMismatch texts.length n)
            else
              match j with
              | Json.arr xs => extractEmbeddings 0 xs
              | _ => Except.error EmbedError.pyRuntime
          | none => Except.error EmbedError.pyRuntime
        | none => Except.error EmbedError.pyRuntime
    | _ => Except.error EmbedError.pyRuntime

/-- `get_embedding`: build the single-text request, post it once through
the transport, parse the response.  The second component is the list of
outbound requests made. -/
def Embedding.get_embedding (e : Embedding) (text : String)
    (transport : Request → Response) : Except EmbedError Json × List Request :=
  let req := e.singleRequest text
  (parseSingle (transport req), [req])

/-- `get_embeddings_batch`: empty input short-circuits to `[]` with no
request; otherwise build the batch request, post it once, parse. -/
def Embedding.get_embeddings_batch (e : Embedding) (texts : List String)
    (transport : Request → Response) : Except EmbedError (List Json) × List Request :=
  if texts.isEmpty then (Except.ok [], [])
  else
    let req := e.batchRequest texts
    (parseBatch texts (transport req), [req])

end OpenMemory

namespace OpenMemory

/-! ### Helper lemmas -/

theorem pyGet_nil (k : String) : pyGet [] k = none := rfl

theorem pyGet_cons_self (k : String) (v : Json) (rest : List (String × Json))
    (hv : v ≠ Json.null) : pyGet ((k, v) :: rest) k = some v := by
  unfold pyGet
  rw [List.lookup_cons_self]
  cases v <;> simp_all

theorem pyGet_cons_self_null (k : String) (rest : List (String × Json)) :
    pyGet ((k, Json.null) :: rest) k = none := by
  unfold pyGet
  rw [List.lookup_cons_self]

theorem extractEmbeddings_ok {items vecs : List Json}
    (h : List.Forall₂ hasEmbedding items vecs) :
    ∀ i, extractEmbeddings i items = Except.ok vecs := by
  induction h with
  | nil => intro i; rfl
  | cons h₁ _ ih =>
    intro i
    obtain ⟨fs, rfl, hget⟩ := h₁
    simp [extractEmbeddings, hget, ih (i + 1)]

theorem extractEmbeddings_err {pre vecs : List Json}
    (h : List.Forall₂ hasEmbedding pre vecs)
    (bad : List (String × Json)) (hbad : pyGet bad "embedding" = none)
    (post : List Json) :
    ∀ i, extractEmbeddings i (pre ++ Json.obj bad :: post)
      = Except.error (EmbedError.missingEmbeddingAt (i + pre.length)) := by
  induction h with
  | nil => intro i; simp [extractEmbeddings, hbad]
  | cons h₁ _ ih =>
    intro i
    obtain ⟨fs, rfl, hget⟩ := h₁
    simp [extractEmbeddings, hget, ih (i + 1)]
    omega

theorem raise_for_status_false {status : Nat} (h : status < 400) :
    raise_for_status status = false := by
  simp [raise_for_status]
  omega

theorem parseSingle_ok {status : Nat} (h4 : status < 400)
    (ifs : List (String × Json)) (v : Json)
    (hget : pyGet ifs "embedding" = some v) (rest : List Json) :
    parseSingle (Response.mk status
        (Json.obj [("embeddings", Json.arr (Json.obj ifs :: rest))]))
      = Except.ok v := by
  have hg : pyGet [("embeddings", Json.arr (Json.obj ifs :: rest))] "embeddings"
      = some (Json.arr (Json.obj ifs :: rest)) :=
    pyGet_cons_self _ _ _ (by simp)
  simp [parseSingle, raise_for_status_false h4, hg, pyTruthy, hget]

theorem parseSingle_missing {status : Nat} (h4 : status < 400)
    (fields : List (String × Json))
    (h : pyGet fields "embeddings" = none
       ∨ pyGet fields "embeddings" = some (Json.arr [])) :
    parseSingle (Response.mk status (Json.obj fields))
      = Except.error EmbedError.missingEmbeddings := by
  rcases h with h | h <;>
    simp [parseSingle, raise_for_status_false h4, h, pyTruthy]

theorem parseBatch_missing (texts : List String) {status : Nat} (h4 : status < 400)
    (fields : List (String × Json))
    (h : pyGet fields "embeddings" = none
       ∨ pyGet fields "embeddings" = some (Json.arr [])) :
    parseBatch texts (Response.mk status (Json.obj fields))
      = Except.error EmbedError.missingEmbeddings := by
  rcases h with h | h <;>
    simp [parseBatch, raise_for_status_false h4, h, pyTruthy]

theorem parseBatch_ok (texts : List String) {status : Nat} (h4 : status < 400)
    {items vecs : List Json} (hne : items ≠ [])
    (hlen : items.length = texts.length)
    (h : List.Forall₂ hasEmbedding items vecs) :
    parseBatch texts (Response.mk status
        (Json.obj [("embeddings", Json.arr items)]))
      = Except.ok vecs := by
  obtain ⟨a, tl, rfl⟩ := List.exists_cons_of_ne_nil hne
  have hg : pyGet [("embeddings", Json.arr (a :: tl))] "embeddings"
      = some (Json.arr (a :: tl)) :=
    pyGet_cons_self _ _ _ (by simp)
  simp [parseBatch, raise_for_status_false h4, hg, pyTruthy, pyLen,
        hlen, extractEmbeddings_ok h 0]

theorem parseBatch_mismatch (texts : List String) {status : Nat} (h4 : status < 400)
    (items : List Json) (hne : items ≠ []) (hlen : items.length ≠ texts.length) :
    parseBatch texts (Response.mk status
        (Json.obj [("embeddings", Json.arr items)]))
      = Except.error (EmbedError.lengthMismatch texts.length items.length) := by
  obtain ⟨a, tl, rfl⟩ := List.exists_cons_of_ne_nil hne
  have hg : pyGet [("embeddings", Json.arr (a :: tl))] "embeddings"
      = some (Json.arr (a :: tl)) :=
    pyGet_cons_self _ _ _ (by simp)
  simp [parseBatch, raise_for_status_false h4, hg, pyTruthy, pyLen, hlen]
  simp only [List.length_cons] at hlen
  intro hcon
  exact absurd hcon hlen

theorem batch_nonempty (e : Embedding) (texts : List String) (hne : texts ≠ [])
    (transport : Request → Response) :
    e.get_embeddings_batch texts transport
      = (parseBatch texts (transport (e.batchRequest texts)),
         [e.batchRequest texts]) := by
  simp [Embedding.get_embeddings_batch, hne]

end OpenMemory

namespace OpenMemory

theorem dropWhile_replicate_append (p : Char → Bool) (c : Char) (hc : p c = true) :
    ∀ (k : Nat) (l : List Char),
      List.dropWhile p (List.replicate k c ++ l) = List.dropWhile p l := by
  intro k
  induction k with
  | zero => intro l; rfl
  | succ n ih => intro l; simp [List.replicate_succ, List.dropWhile_cons, hc, ih l]

theorem rstripSlashes_append_slashes (u : String)
    (hu : u.data.getLast? ≠ some '/') (k : Nat) :
    rstripSlashes (u ++ String.mk (List.replicate k '/')) = u := by
  obtain ⟨ud⟩ := u
  show rstripSlashes (String.mk (ud ++ List.replicate k '/')) = String.mk ud
  unfold rstripSlashes
  simp only [List.reverse_append, List.reverse_replicate]
  rw [dropWhile_replicate_append _ _ (by simp)]
  cases hrev : ud.reverse with
  | nil =>
    have : ud = [] := by simpa using congrArg List.reverse hrev
    simp [this]
  | cons c t =>
    have hlast : ud.getLast? = some c := by
      rw [← List.head?_reverse, hrev]
      rfl
    have hc : (c == '/') = false := by
      cases h : (c == '/') with
      | false => rfl
      | true =>
        exfalso
        apply hu
        have hce : c = '/' := by rwa [beq_iff_eq] at h
        show ud.getLast? = some '/'
        rw [← hce]
        exact hlast
    rw [List.dropWhile_cons_of_neg (by simp [hc])]
    rw [← hrev, List.reverse_reverse]

end OpenMemory

namespace OpenMemory

theorem parseBatch_missingAt (texts : List String) {status : Nat} (h4 : status < 400)
    {pre vecs : List Json} (hpre : List.Forall₂ hasEmbedding pre vecs)
    (bad : List (String × Json)) (hbad : pyGet bad "embedding" = none)
    (post : List Json)
    (hlen : (pre ++ Json.obj bad :: post).length = texts.length) :
    parseBatch texts (Response.mk status
        (Json.obj [("embeddings", Json.arr (pre ++ Json.obj bad :: post))]))
      = Except.error (EmbedError.missingEmbeddingAt pre.length) := by
  have hg : pyGet [("embeddings", Json.arr (pre ++ Json.obj bad :: post))] "embeddings"
      = some (Json.arr (pre ++ Json.obj bad :: post)) :=
    pyGet_cons_self _ _ _ (by simp)
  have hx := extractEmbeddings_err hpre bad hbad post 0
  simp only [Nat.zero_add] at hx
  simp [parseBatch, raise_for_status_false h4, hg, pyTruthy, pyLen, hlen, hx]

theorem parseSingle_item_missing {status : Nat} (h4 : status < 400)
    (ifs : List (String × Json)) (hget : pyGet ifs "embedding" = none)
    (rest : List Json) :
    parseSingle (Response.mk status (Json.obj
        [("embeddings", Json.arr (Json.obj ifs :: rest))]))
      = Except.error EmbedError.missingEmbedding := by
  have hg : pyGet [("embeddings", Json.arr (Json.obj ifs :: rest))] "embeddings"
      = some (Json.arr (Json.obj ifs :: rest)) :=
    pyGet_cons_self _ _ _ (by simp)
  simp [parseSingle, raise_for_status_false h4, hg, pyTruthy, hget]

end OpenMemory

namespace OpenMemory

/-! ### Claim theorems -/

/-- C1: for every non-empty list of N input texts, if the HTTP response
succeeds (2xx) and its `embeddings` field holds exactly N items, the i-th
carrying the i-th vector under its `embedding` field, then
`get_embeddings_batch` returns exactly those N vectors, in the order of
the response items, i.e. of the input texts. -/
theorem batch_order_preserved (e : Embedding) (texts : List String)
    (hne : texts ≠ []) (status : Nat) (hs : 200 ≤ status ∧ status < 300)
    (items vecs : List Json) (hlen : items.length = texts.length)
    (hitems : List.Forall₂ hasEmbedding items vecs) :
    (e.get_embeddings_batch texts (fun _ =>
        Response.mk status (Json.obj [("embeddings", Json.arr items)]))).1
      = Except.ok vecs := by
  rw [batch_nonempty e texts hne]
  refine parseBatch_ok texts (by omega) ?_ hlen hitems
  intro h
  subst h
  exact hne (List.length_eq_zero.mp hlen.symm)

/-- C1 witness: two texts, two response items, vectors returned in order. -/
theorem batch_order_preserved_witness :
    (["a", "b"] : List String) ≠ [] ∧
    ((Embedding.init "k" "http://s" "m").get_embeddings_batch ["a", "b"] (fun _ =>
        Response.mk 200 (Json.obj [("embeddings", Json.arr
          [Json.obj [("embedding", Json.arr [Json.num 1])],
           Json.obj [("embedding", Json.arr [Json.num 2])]])]))).1
      = Except.ok [Json.arr [Json.num 1], Json.arr [Json.num 2]] :=
  ⟨by simp,
   batch_order_preserved _ _ (by simp) 200 (by omega) _ _ rfl
     (List.Forall₂.cons ⟨_, rfl, rfl⟩
       (List.Forall₂.cons ⟨_, rfl, rfl⟩ List.Forall₂.nil))⟩

/-- C2: for every text, if the HTTP response succeeds (2xx) and its
`embeddings` field is non-empty and the first item carries `v` under its
`embedding` field, then `get_embedding` returns exactly `v`. -/
theorem single_returns_first_embedding (e : Embedding) (text : String)
    (status : Nat) (hs : 200 ≤ status ∧ status < 300)
    (ifs : List (String × Json)) (v : Json)
    (hget : pyGet ifs "embedding" = some v) (rest : List Json) :
    (e.get_embedding text (fun _ =>
        Response.mk status (Json.obj
          [("embeddings", Json.arr (Json.obj ifs :: rest))]))).1
      = Except.ok v := by
  show parseSingle _ = _
  exact parseSingle_ok (by omega) ifs v hget rest

/-- C2 witness: a one-item response yields exactly its vector. -/
theorem single_returns_first_embedding_witness :
    ((Embedding.init "k" "http://s" "m").get_embedding "hello" (fun _ =>
        Response.mk 200 (Json.obj [("embeddings", Json.arr
          [Json.obj [("embedding", Json.arr [Json.num 1, Json.num 2])]])]))).1
      = Except.ok (Json.arr [Json.num 1, Json.num 2]) :=
  single_returns_first_embedding (Embedding.init "k" "http://s" "m") "hello" 200
    (by omega) [("embedding", Json.arr [Json.num 1, Json.num 2])]
    (Json.arr [Json.num 1, Json.num 2]) rfl []

/-- C3: `get_embeddings_batch` on the empty input list returns the empty
list at once and makes no outbound request, whatever the transport. -/
theorem batch_empty_short_circuit (e : Embedding) (transport : Request → Response) :
    e.get_embeddings_batch [] transport = (Except.ok [], []) := rfl

end OpenMemory

namespace OpenMemory

/-- C4 counterexample: the claim quantifies over any input, but
`get_embeddings_batch` called on the empty input list short-circuits
before any request, so even with a mocked successful response that lacks
`embeddings` entirely it returns the empty list instead of failing. -/
theorem missing_embeddings_any_input_counterexample :
    (Embedding.init "k" "http://s" "m").get_embeddings_batch []
        (fun _ => Response.mk 200 (Json.obj []))
      = (Except.ok [], []) := rfl

/-- C4 (amended): for every single text, and every non-empty input list
in the batch case, if the HTTP response succeeds (2xx) but its
`embeddings` field is absent or null (`pyGet _ = none`) or the empty
list, both operations fail with the missing-embeddings validation
error. -/
theorem missing_embeddings_validation (e : Embedding) (text : String)
    (texts : List String) (hne : texts ≠ []) (status : Nat)
    (hs : 200 ≤ status ∧ status < 300) (fields : List (String × Json))
    (h : pyGet fields "embeddings" = none
       ∨ pyGet fields "embeddings" = some (Json.arr [])) :
    (e.get_embedding text (fun _ => Response.mk status (Json.obj fields))).1
        = Except.error EmbedError.missingEmbeddings
    ∧ (e.get_embeddings_batch texts (fun _ => Response.mk status (Json.obj fields))).1
        = Except.error EmbedError.missingEmbeddings := by
  constructor
  · show parseSingle _ = _
    exact parseSingle_missing (by omega) fields h
  · rw [batch_nonempty e texts hne]
    exact parseBatch_missing texts (by omega) fields h

/-- C4 witness: a response whose `embeddings` key holds JSON null makes
both operations fail with the missing-embeddings error. -/
theorem missing_embeddings_validation_witness :
    (["x"] : List String) ≠ [] ∧
    ((Embedding.init "k" "http://s" "m").get_embedding "x" (fun _ =>
        Response.mk 200 (Json.obj [("embeddings", Json.null)]))).1
      = Except.error EmbedError.missingEmbeddings ∧
    ((Embedding.init "k" "http://s" "m").get_embeddings_batch ["x"] (fun _ =>
        Response.mk 200 (Json.obj [("embeddings", Json.null)]))).1
      = Except.error EmbedError.missingEmbeddings := by
  refine ⟨by simp, ?_⟩
  exact missing_embeddings_validation (Embedding.init "k" "http://s" "m") "x" ["x"]
    (by simp) 200 (by omega) [("embeddings", Json.null)] (Or.inl rfl)

/-- C5: for every non-empty input list, a successful (2xx) response whose
`embeddings` list is non-empty but of a different length than the input
makes `get_embeddings_batch` fail with the length-mismatch error carrying
both counts, whose message reports the expected (input) and actual
(response) counts; an empty `embeddings` list instead yields the
missing-embeddings error, i.e. the length check runs only after the
missing/empty check passes. -/
theorem batch_length_mismatch_reported (e : Embedding) (texts : List String)
    (hne : texts ≠ []) (status : Nat) (hs : 200 ≤ status ∧ status < 300)
    (items : List Json) (hne2 : items ≠ [])
    (hlen : items.length ≠ texts.length) :
    (e.get_embeddings_batch texts (fun _ =>
        Response.mk status (Json.obj [("embeddings", Json.arr items)]))).1
      = Except.error (EmbedError.lengthMismatch texts.length items.length)
    ∧ (EmbedError.lengthMismatch texts.length items.length).message
      = "Response length mismatch: expected " ++ toString texts.length
          ++ ", got " ++ toString items.length
    ∧ (e.get_embeddings_batch texts (fun _ =>
        Response.mk status (Json.obj [("embeddings", Json.arr [])]))).1
      = Except.error EmbedError.missingEmbeddings := by
  refine ⟨?_, rfl, ?_⟩
  · rw [batch_nonempty e texts hne]
    exact parseBatch_mismatch texts (by omega) items hne2 hlen
  · rw [batch_nonempty e texts hne]
    exact parseBatch_missing texts (by omega) _
      (Or.inr (pyGet_cons_self _ _ _ (by simp)))

/-- C5 witness: two texts, one response item. -/
theorem batch_length_mismatch_reported_witness :
    ((Embedding.init "k" "http://s" "m").get_embeddings_batch ["a", "b"] (fun _ =>
        Response.mk 200 (Json.obj [("embeddings", Json.arr
          [Json.obj [("embedding", Json.arr [Json.num 1])]])]))).1
      = Except.error (EmbedError.lengthMismatch 2 1) :=
  (batch_length_mismatch_reported (Embedding.init "k" "http://s" "m") ["a", "b"]
    (by simp) 200 (by omega) [Json.obj [("embedding", Json.arr [Json.num 1])]]
    (by simp) (by simp)).1

/-- C6: for every non-empty input list, a successful (2xx) response of
matching length whose items up to position `pre.length` all carry an
`embedding` field while the item at position `pre.length` (the smallest
offending index, items being processed in order) lacks one, makes
`get_embeddings_batch` fail with the validation error naming that index;
the message reports the index, and no partial result is returned. -/
theorem batch_missing_item_index_reported (e : Embedding) (texts : List String)
    (hne : texts ≠ []) (status : Nat) (hs : 200 ≤ status ∧ status < 300)
    (pre vecs : List Json) (hpre : List.Forall₂ hasEmbedding pre vecs)
    (bad : List (String × Json)) (hbad : pyGet bad "embedding" = none)
    (post : List Json)
    (hlen : (pre ++ Json.obj bad :: post).length = texts.length) :
    (e.get_embeddings_batch texts (fun _ =>
        Response.mk status (Json.obj
          [("embeddings", Json.arr (pre ++ Json.obj bad :: post))]))).1
      = Except.error (EmbedError.missingEmbeddingAt pre.length)
    ∧ (EmbedError.missingEmbeddingAt pre.length).message
      = "Missing embedding in response item " ++ toString pre.length := by
  refine ⟨?_, rfl⟩
  rw [batch_nonempty e texts hne]
  exact parseBatch_missingAt texts (by omega) hpre bad hbad post hlen

/-- C6 witness: the second of two items lacks `embedding`; index 1 is
reported. -/
theorem batch_missing_item_index_reported_witness :
    ((Embedding.init "k" "http://s" "m").get_embeddings_batch ["a", "b"] (fun _ =>
        Response.mk 200 (Json.obj [("embeddings", Json.arr
          [Json.obj [("embedding", Json.arr [Json.num 1])], Json.obj []])]))).1
      = Except.error (EmbedError.missingEmbeddingAt 1) :=
  (batch_missing_item_index_reported (Embedding.init "k" "http://s" "m")
    ["a", "b"] (by simp) 200 (by omega)
    [Json.obj [("embedding", Json.arr [Json.num 1])]] [Json.arr [Json.num 1]]
    (List.Forall₂.cons ⟨_, rfl, rfl⟩ List.Forall₂.nil) [] rfl [] rfl).1

end OpenMemory

namespace OpenMemory

/-- C7 counterexample: 304 is not a 2xx status, yet `get_embedding` does
not fail with a transport error there: `raise_for_status` fires only on
4xx/5xx, so the call proceeds to parse the body and succeeds. -/
theorem non2xx_transport_error_counterexample :
    ¬ (200 ≤ 304 ∧ 304 < 300)
    ∧ ((Embedding.init "k" "http://s" "m").get_embedding "a" (fun _ =>
        Response.mk 304 (Json.obj [("embeddings",
          Json.arr [Json.obj [("embedding", Json.arr [Json.num 1])]])]))).1
      = Except.ok (Json.arr [Json.num 1]) :=
  ⟨by omega, rfl⟩

/-- C7 (amended): for every text, and every non-empty input list in the
batch case, a 4xx or 5xx response status makes both operations fail with
the transport error carrying that status unmodified, after exactly one
outbound request (no retry); statuses outside 400-599, even non-2xx ones,
do not raise the transport error. -/
theorem http_error_status_transport (e : Embedding) (text : String)
    (texts : List String) (hne : texts ≠ []) (status : Nat)
    (h4 : 400 ≤ status) (h6 : status < 600) (body : Json) :
    e.get_embedding text (fun _ => Response.mk status body)
        = (Except.error (EmbedError.transport status), [e.singleRequest text])
    ∧ e.get_embeddings_batch texts (fun _ => Response.mk status body)
        = (Except.error (EmbedError.transport status), [e.batchRequest texts]) := by
  have hr : raise_for_status status = true := by
    simp only [raise_for_status, Bool.and_eq_true, decide_eq_true_eq]
    omega
  constructor
  · show (parseSingle _, _) = _
    simp [parseSingle, hr]
  · rw [batch_nonempty e texts hne]
    simp [parseBatch, hr]

/-- C7 witness: a 500 status produces a transport error after one call
from each operation. -/
theorem http_error_status_transport_witness :
    ((Embedding.init "k" "http://s" "m").get_embedding "a" (fun _ =>
        Response.mk 500 Json.null)).1
      = Except.error (EmbedError.transport 500) ∧
    ((Embedding.init "k" "http://s" "m").get_embeddings_batch ["a"] (fun _ =>
        Response.mk 500 Json.null)).2.length = 1 := by
  have h := http_error_status_transport (Embedding.init "k" "http://s" "m") "a"
    ["a"] (by simp) 500 (by omega) (by omega) Json.null
  exact ⟨by rw [h.1], by rw [h.2]; rfl⟩

/-- C8: each operation makes its one outbound request a POST to
`{base_url}/embeddings` carrying the bearer-token authorization header
and the JSON body with the input texts, the literal input type
`document` and the configured model; `get_embedding` sends a one-element
inputs list with timeout 30, `get_embeddings_batch` all texts with
timeout 60. -/
theorem request_wire_format (e : Embedding) (text : String)
    (texts : List String) (hne : texts ≠ []) (transport : Request → Response) :
    (e.get_embedding text transport).2
      = [{ method := "POST", url := e.base_url ++ "/embeddings",
           headers := [("Authorization", "Bearer " ++ e.api_key)],
           body := Json.obj [("inputs", Json.arr [Json.str text]),
                             ("input_type", Json.str "document"),
                             ("embedding_model", Json.str e.model)],
           timeout := 30 }]
    ∧ (e.get_embeddings_batch texts transport).2
      = [{ method := "POST", url := e.base_url ++ "/embeddings",
           headers := [("Authorization", "Bearer " ++ e.api_key)],
           body := Json.obj [("inputs", Json.arr (texts.map Json.str)),
                             ("input_type", Json.str "document"),
                             ("embedding_model", Json.str e.model)],
           timeout := 60 }] := by
  refine ⟨rfl, ?_⟩
  rw [batch_nonempty e texts hne]
  rfl

/-- C8 witness: the concrete request each operation records. -/
theorem request_wire_format_witness :
    ((Embedding.init "k" "http://s" "m").get_embedding "a" (fun _ =>
        Response.mk 200 Json.null)).2
      = [{ method := "POST", url := "http://s/embeddings",
           headers := [("Authorization", "Bearer k")],
           body := Json.obj [("inputs", Json.arr [Json.str "a"]),
                             ("input_type", Json.str "document"),
                             ("embedding_model", Json.str "m")],
           timeout := 30 }] :=
  (request_wire_format (Embedding.init "k" "http://s" "m") "a" ["a"]
    (by simp) (fun _ => Response.mk 200 Json.null)).1

end OpenMemory

namespace OpenMemory

/-- C9: construction strips every trailing slash from the base URL and
stores the result, so with a base URL made of `u` (not itself ending in
a slash) followed by one or more slashes, the stored base URL is `u` and
every request of either operation targets `u ++ "/embeddings"`. -/
theorem base_url_trailing_slash_normalized (api_key u model text : String)
    (hu : u.data.getLast? ≠ some '/') (k : Nat) (_hk : 1 ≤ k)
    (texts : List String) (hne : texts ≠ []) (transport : Request → Response) :
    (Embedding.init api_key (u ++ String.mk (List.replicate k '/')) model).base_url = u
    ∧ ((Embedding.init api_key (u ++ String.mk (List.replicate k '/')) model).get_embedding
        text transport).2.map Request.url = [u ++ "/embeddings"]
    ∧ ((Embedding.init api_key (u ++ String.mk (List.replicate k '/')) model).get_embeddings_batch
        texts transport).2.map Request.url = [u ++ "/embeddings"] := by
  have hb : (Embedding.init api_key (u ++ String.mk (List.replicate k '/')) model).base_url = u :=
    rstripSlashes_append_slashes u hu k
  refine ⟨hb, ?_, ?_⟩
  · show [(Embedding.init api_key (u ++ String.mk (List.replicate k '/')) model).singleRequest
        text].map Request.url = _
    simp [Embedding.singleRequest, hb]
  · rw [batch_nonempty _ texts hne]
    show [(Embedding.init api_key (u ++ String.mk (List.replicate k '/')) model).batchRequest
        texts].map Request.url = _
    simp [Embedding.batchRequest, hb]

/-- C9 witness: base URL `http://s//` yields requests to
`http://s/embeddings`. -/
theorem base_url_trailing_slash_normalized_witness :
    (Embedding.init "k" ("http://s" ++ String.mk (List.replicate 2 '/')) "m").base_url
      = "http://s"
    ∧ ((Embedding.init "k" ("http://s" ++ String.mk (List.replicate 2 '/')) "m").get_embedding
        "a" (fun _ => Response.mk 200 Json.null)).2.map Request.url
      = ["http://s" ++ "/embeddings"] := by
  have h := base_url_trailing_slash_normalized "k" "http://s" "m" "a"
    (by intro hc; simp [String.data] at hc) 2 (by omega) ["a"] (by simp)
    (fun _ => Response.mk 200 Json.null)
  exact ⟨h.1, h.2.1⟩

/-- C10: the extracted `embedding` value is returned verbatim, with no
type validation: any non-null JSON value (a string, a number, an object,
a mixed list) is returned as the vector by both operations, while a
missing key or an explicit JSON null (which Python observes as `None`)
triggers the missing-embedding validation error. -/
theorem embedding_value_returned_verbatim (e : Embedding) (text : String)
    (status : Nat) (hs : 200 ≤ status ∧ status < 300)
    (v : Json) (hv : v ≠ Json.null) (rest : List Json) :
    (e.get_embedding text (fun _ => Response.mk status (Json.obj
        [("embeddings", Json.arr (Json.obj [("embedding", v)] :: rest))]))).1
      = Except.ok v
    ∧ (e.get_embeddings_batch [text] (fun _ => Response.mk status (Json.obj
        [("embeddings", Json.arr [Json.obj [("embedding", v)]])]))).1
      = Except.ok [v]
    ∧ (e.get_embedding text (fun _ => Response.mk status (Json.obj
        [("embeddings", Json.arr (Json.obj [("embedding", Json.null)] :: rest))]))).1
      = Except.error EmbedError.missingEmbedding
    ∧ (e.get_embedding text (fun _ => Response.mk status (Json.obj
        [("embeddings", Json.arr (Json.obj [] :: rest))]))).1
      = Except.error EmbedError.missingEmbedding
    ∧ (e.get_embeddings_batch [text] (fun _ => Response.mk status (Json.obj
        [("embeddings", Json.arr [Json.obj [("embedding", Json.null)]])]))).1
      = Except.error (EmbedError.missingEmbeddingAt 0) := by
  refine ⟨?_, ?_, ?_, ?_, ?_⟩
  · show parseSingle _ = _
    exact parseSingle_ok (by omega) _ v (pyGet_cons_self _ _ _ hv) rest
  · rw [batch_nonempty e [text] (by simp)]
    exact parseBatch_ok [text] (by omega) (by simp) (by simp)
      (List.Forall₂.cons ⟨_, rfl, pyGet_cons_self _ _ _ hv⟩ List.Forall₂.nil)
  · show parseSingle _ = _
    exact parseSingle_item_missing (by omega) _ (pyGet_cons_self_null _ _) rest
  · show parseSingle _ = _
    exact parseSingle_item_missing (by omega) [] rfl rest
  · rw [batch_nonempty e [text] (by simp)]
    have h := @parseBatch_missingAt [text] status (by omega) [] [] List.Forall₂.nil
      [("embedding", Json.null)] (pyGet_cons_self_null _ _) [] (by simp)
    simpa using h

/-- C10 witness: a bare string under `embedding` is returned as the
vector, and a null value triggers the validation error. -/
theorem embedding_value_returned_verbatim_witness :
    (Json.str "oops" ≠ Json.null)
    ∧ ((Embedding.init "k" "http://s" "m").get_embedding "a" (fun _ =>
        Response.mk 200 (Json.obj [("embeddings",
          Json.arr [Json.obj [("embedding", Json.str "oops")]])]))).1
      = Except.ok (Json.str "oops")
    ∧ ((Embedding.init "k" "http://s" "m").get_embedding "a" (fun _ =>
        Response.mk 200 (Json.obj [("embeddings",
          Json.arr [Json.obj [("embedding", Json.null)]])]))).1
      = Except.error EmbedError.missingEmbedding := by
  have h := embedding_value_returned_verbatim (Embedding.init "k" "http://s" "m")
    "a" 200 (by omega) (Json.str "oops") (by simp) []
  exact ⟨by simp, h.1, h.2.2.1⟩

end OpenMemory
